import Mathlib

/- Shallow embedding of the s3-db core: the process-wide configuration store
   and bucket-name templating (src/src/db/S3DB.ts), the collection
   constructor with its configuration merge and sub-collection prefixing
   (src/unnamed/part_000), and the head behaviour (src/unnamed/part_001).
   JavaScript strings are Lean `String`s; the JS primitives `replace`,
   `toLowerCase` and `startsWith` and template-literal interpolation are
   modelled over `String.data`. Collaborator classes that are not under
   src/ (the registry, the behaviour base class with its key resolver, the
   S3 client's error translation) are modelled from the spec and say so in
   their doc comments. -/

/-- Model of JS `String.prototype.toLowerCase` on the ASCII range (as used
for registry lookups): lower-cases every character. -/
def jsToLower (s : String) : String := ⟨s.data.map Char.toLower⟩

/-- Model of JS `String.prototype.startsWith`: the pattern's characters are
a prefix of the string's characters. -/
def strStartsWith (s pat : String) : Bool := pat.data.isPrefixOf s.data

/-- Index of the first occurrence of `pat` in `s`, if any (JS `indexOf`,
over character lists). -/
def findSub : List Char → List Char → Option Nat
  | s, pat =>
    if pat.isPrefixOf s then some 0
    else
      match s with
      | [] => none
      | _ :: rest => (findSub rest pat).map (· + 1)

/-- Expansion of the dollar escapes JS `String.prototype.replace` applies to
its replacement string when the pattern is a string: two dollars give one
dollar, dollar-ampersand the matched pattern, dollar-backquote the part of
the subject before the match, dollar-quote the part after it; every other
character is literal. -/
def expandDollar (before matched after : List Char) : List Char → List Char
  | [] => []
  | '$' :: '$' :: rest => '$' :: expandDollar before matched after rest
  | '$' :: '&' :: rest => matched ++ expandDollar before matched after rest
  | '$' :: c :: rest =>
    if c = Char.ofNat 96 then before ++ expandDollar before matched after rest
    else if c = '\'' then after ++ expandDollar before matched after rest
    else '$' :: c :: expandDollar before matched after rest
  | c :: rest => c :: expandDollar before matched after rest

/-- Model of JS `String.prototype.replace` with a string pattern: replaces
the first occurrence only; with no occurrence the string is unchanged. -/
def jsReplace (s pat rep : List Char) : List Char :=
  match findSub s pat with
  | none => s
  | some i =>
    let before := s.take i
    let after := s.drop (i + pat.length)
    before ++ expandDollar before pat after rep ++ after

/-- JS `replace` lifted to `String`. -/
def jsReplaceS (s pat rep : String) : String := ⟨jsReplace s.data pat.data rep.data⟩

/-- Modelled from the spec: the fields of the `S3DBConfiguration` class
(imported from `./Configuration`, not under src/) as `S3DB`
(src/src/db/S3DB.ts) reads them — base name, stage, bucket pattern, and an
optional region (spec section 6: the process-wide store exposes baseName,
stage, bucketPattern, region). -/
structure S3DBConfiguration where
  baseName : String
  stage : String
  bucketPattern : String
  region : Option String
  deriving DecidableEq

/-- Argument of `S3DB.update` (src/src/db/S3DB.ts, line 13): every field
optional. A `none` field is one the caller left out. -/
structure S3DBConfigUpdate where
  baseName : Option String := none
  stage : Option String := none
  bucketPattern : Option String := none
  region : Option String := none
  deriving DecidableEq

/-- `S3DB.update` (src/src/db/S3DB.ts, lines 13-17): the spread merge
`{ ...this.configuration, ...configuration }` — a field present in the
update replaces the stored one, an absent field keeps it. -/
def S3DB.update (c : S3DBConfiguration) (u : S3DBConfigUpdate) : S3DBConfiguration :=
  { baseName := u.baseName.getD c.baseName
    stage := u.stage.getD c.stage
    bucketPattern := u.bucketPattern.getD c.bucketPattern
    region := u.region <|> c.region }

/-- `S3DB.getRegion` (src/src/db/S3DB.ts, lines 49-51): the configured
region, or the fixed fallback when it is undefined or empty (JS `||` treats
the empty string as falsy). -/
def S3DB.getRegion (c : S3DBConfiguration) : String :=
  match c.region with
  | none => "us-west-2"
  | some r => if r = "" then "us-west-2" else r

/-- Placeholder for the stage in a bucket pattern. -/
def stagePlaceholder : String := "\x7b\x7bstage\x7d\x7d"

/-- Placeholder for the region in a bucket pattern. -/
def regionPlaceholder : String := "\x7b\x7bregion\x7d\x7d"

/-- Placeholder for the base name in a bucket pattern. -/
def baseNamePlaceholder : String := "\x7b\x7bbaseName\x7d\x7d"

/-- Placeholder for the collection name in a bucket pattern. -/
def bucketNamePlaceholder : String := "\x7b\x7bbucketName\x7d\x7d"

/-- `S3DB.getCollectionFQN` (src/src/db/S3DB.ts, lines 38-44): four chained
JS `replace` calls over the bucket pattern, substituting the stage, the
region, the base name and the collection name, in that order. -/
def S3DB.getCollectionFQN (c : S3DBConfiguration) (name : String) : String :=
  jsReplaceS
    (jsReplaceS
      (jsReplaceS
        (jsReplaceS c.bucketPattern stagePlaceholder c.stage)
        regionPlaceholder (S3DB.getRegion c))
      baseNamePlaceholder c.baseName)
    bucketNamePlaceholder name

/-- Modelled from the spec: the `CollectionConfiguration` class (imported in
src/unnamed/part_000, not under src/) — spec section 3: a name plus
collection-level options such as a page size, and the `type` tag the
constructor overlays. Fields are optional so the JS spread merge can tell a
present field from an absent one. -/
structure CollectionConfiguration where
  name : Option String := none
  pageSize : Option Nat := none
  type : Option String := none
  deriving DecidableEq

/-- Modelled from the spec: the registry interface of spec section 6,
`resolve(lowercasedName) -> CollectionConfiguration | undefined`
(`CollectionRegistry` is not under src/). -/
abbrev CollectionRegistry : Type := String → Option CollectionConfiguration

/-- Merge step of the `Collection` constructor (src/unnamed/part_000,
line 43): `{ ...new CollectionConfiguration(), ...resolvedConfiguration,
...{ type } }` — JS spread, fields present in a later object win; the
caller's `type` is overlaid last. -/
def mergeConfig (defaults : CollectionConfiguration)
    (resolved : Option CollectionConfiguration) (typeName : String) :
    CollectionConfiguration :=
  match resolved with
  | none => { defaults with type := some typeName }
  | some r =>
    { name := r.name <|> defaults.name
      pageSize := r.pageSize <|> defaults.pageSize
      type := some typeName }

/-- JS falsiness of `this.configuration.name`
(`if (!this.configuration.name)`, src/unnamed/part_000, line 45): undefined
or the empty string. -/
def nameFalsy : Option String → Bool
  | none => true
  | some s => s == ""

/-- Binding a behaviour unit receives at construction: the merged
configuration, the resolved bucket name and the id prefix (each of the six
behaviours is built with exactly these plus the client,
src/unnamed/part_000, lines 53-58; the client itself carries no state this
embedding needs). -/
structure BehaviorState where
  configuration : CollectionConfiguration
  fullBucketName : String
  idPrefix : Option String
  deriving DecidableEq

/-- State of a constructed `Collection` (src/unnamed/part_000): the merged
configuration, the id prefix, the resolved bucket name and the six
behaviour units. -/
structure CollectionState where
  configuration : CollectionConfiguration
  idPrefix : Option String
  fullBucketName : String
  headBehavior : BehaviorState
  existsBehavior : BehaviorState
  loadBehavior : BehaviorState
  saveBheavior : BehaviorState
  deleteBehavior : BehaviorState
  findBehavior : BehaviorState
  deriving DecidableEq

/-- Error message of src/unnamed/part_000, line 45. -/
def noNameMessage : String :=
  "The configuration has no name defined, which is used to determine the bucket name."

/-- Name resolution and configuration merge of the `Collection` constructor
(src/unnamed/part_000, lines 34-49): reject an empty logical name, look the
lower-cased name up in the registry (a miss is not an error), spread-merge,
reject a merged configuration whose name is falsy, and resolve the bucket
name from the process-wide configuration `gcfg` captured at construction
time. -/
def Collection.resolve (registry : CollectionRegistry)
    (defaults : CollectionConfiguration) (gcfg : S3DBConfiguration)
    (typeName : String) : Except String (CollectionConfiguration × String) :=
  if typeName = "" then Except.error "No type was provided."
  else
    if nameFalsy (mergeConfig defaults (registry (jsToLower typeName)) typeName).name then
      Except.error noNameMessage
    else
      Except.ok (mergeConfig defaults (registry (jsToLower typeName)) typeName,
        S3DB.getCollectionFQN gcfg
          ((mergeConfig defaults (registry (jsToLower typeName)) typeName).name.getD ""))

/-- The `Collection` constructor (src/unnamed/part_000, lines 34-61) as a
fallible function: `registry` and `defaults` stand for the collaborators
`CollectionRegistry.instance()` and `new CollectionConfiguration()`. On
success all six behaviour units are bound to the same configuration, bucket
name and id prefix; on failure nothing is produced. The caller's type is
modelled by its logical name (for a string argument, the string itself). -/
def Collection.construct (registry : CollectionRegistry)
    (defaults : CollectionConfiguration) (gcfg : S3DBConfiguration)
    (typeName : String) (idPrefix : Option String) :
    Except String CollectionState :=
  match Collection.resolve registry defaults gcfg typeName with
  | Except.error e => Except.error e
  | Except.ok (configuration, fullBucketName) =>
    let b : BehaviorState :=
      { configuration := configuration, fullBucketName := fullBucketName
        idPrefix := idPrefix }
    Except.ok
      { configuration := configuration, idPrefix := idPrefix
        fullBucketName := fullBucketName
        headBehavior := b, existsBehavior := b, loadBehavior := b
        saveBheavior := b, deleteBehavior := b, findBehavior := b }

/-- JS template-literal interpolation of a `string | undefined` value: the
undefined value prints as the string "undefined". -/
def interpolate : Option String → String
  | none => "undefined"
  | some s => s

/-- Effective prefix handed to the child collection by
`Collection.subCollection` (src/unnamed/part_000, line 83): the template
literal gluing the parent's `idPrefix` onto the new prefix. -/
def Collection.subPrefix (parent : Option String) (p : String) : String :=
  interpolate parent ++ p

/-- `Collection.subCollection` (src/unnamed/part_000, lines 82-84):
constructs a child collection for `newType` with the composed prefix. -/
def Collection.subCollection (registry : CollectionRegistry)
    (defaults : CollectionConfiguration) (gcfg : S3DBConfiguration)
    (c : CollectionState) (p : String) (newType : String) :
    Except String CollectionState :=
  Collection.construct registry defaults gcfg newType
    (some (Collection.subPrefix c.idPrefix p))

/-- Iterated sub-collection prefixing: the id prefix reached by nesting
through the prefixes of `ps` in order, starting from a parent whose id
prefix is `parent`. -/
def nestPrefix (parent : Option String) : List String → Option String
  | [] => parent
  | p :: ps => nestPrefix (some (Collection.subPrefix parent p)) ps

/-- Concatenation of a list of prefixes into the single string a one-call
sub-collection would receive. -/
def concatAll : List String → String
  | [] => ""
  | [p] => p
  | p :: ps => p ++ concatAll ps

/-- Modelled from the spec: the key resolver `toKey(id, prefix)` of spec
section 4.3 (the behaviour base class with `adjustId` is not under src/):
an undefined or empty prefix leaves the id alone; an id that already starts
with the prefix is unchanged; otherwise the prefix is prepended. -/
def toKey (id : String) : Option String → String
  | none => id
  | some p =>
    if p = "" then id
    else if strStartsWith id p then id
    else p ++ id

/-- Backend (S3 client) failure on a call: the not-found condition, or any
other failure carrying a code. -/
inductive BackendError where
  | notFound
  | backendFailure (code : String)
  deriving DecidableEq

/-- Backend response to a metadata-only fetch: the descriptor fields the
spec names for StorageObjectMetadata (section 3). -/
structure HeadObjectOutput where
  contentLength : Option Nat := none
  eTag : Option String := none
  lastModified : Option String := none
  deriving DecidableEq

/-- Storage metadata surfaced to callers. -/
structure S3Metadata where
  contentLength : Option Nat := none
  eTag : Option String := none
  lastModified : Option String := none
  deriving DecidableEq

/-- Modelled from the spec: `S3Client.buildS3Metadata` (not under src/) — a
read-only copy of the backend-reported descriptor (spec section 3). -/
def buildS3Metadata (o : HeadObjectOutput) : S3Metadata :=
  { contentLength := o.contentLength, eTag := o.eTag
    lastModified := o.lastModified }

/-- Error kinds of spec section 7 that the head and exists paths can
produce. -/
inductive S3DBError where
  | notFoundError (bucket key : String)
  | storageError (bucket key code : String)
  deriving DecidableEq

/-- Modelled from the spec: `S3Client.handleError(error, bucket, key)` (not
under src/) — translates a backend failure, adding bucket and key context:
the not-found condition to the not-found kind, anything else to the
StorageError kind (spec section 7). -/
def handleError (e : BackendError) (bucket key : String) : S3DBError :=
  match e with
  | BackendError.notFound => S3DBError.notFoundError bucket key
  | BackendError.backendFailure code => S3DBError.storageError bucket key code

/-- A backend, reduced to the one call the head path needs:
`headObject(bucket, key)`. -/
abbrev Backend : Type := String → String → Except BackendError HeadObjectOutput

/-- Parameters of the head call (src/unnamed/part_001, lines 17-20): the
behaviour's bucket and the prefix-adjusted key. -/
structure HeadObjectRequest where
  Bucket : String
  Key : String
  deriving DecidableEq

/-- Request the head behaviour builds for the backend
(src/unnamed/part_001, lines 17-20). -/
def headParameters (b : BehaviorState) (id : String) : HeadObjectRequest :=
  { Bucket := b.fullBucketName, Key := toKey id b.idPrefix }

/-- `HeadBehavior.head` (src/unnamed/part_001, lines 15-26): issues the
metadata fetch; a successful response becomes metadata; on any backend
failure the catch block throws the result of `handleError` — it does not
special-case the not-found condition. The context passed to `handleError`
is the raw id, not the adjusted key. -/
def HeadBehavior.head (backend : Backend) (b : BehaviorState) (id : String) :
    Except S3DBError S3Metadata :=
  let parameters := headParameters b id
  match backend parameters.Bucket parameters.Key with
  | Except.ok response => Except.ok (buildS3Metadata response)
  | Except.error e => Except.error (handleError e b.fullBucketName id)

/-- Modelled from the spec: `ExistsBehavior.exists` (not under src/) — the
same call as head with the result reduced to a boolean, the not-found
condition resolving to false instead of propagating (spec section 4.4; the
source method is named `exists`, a Lean keyword). -/
def ExistsBehavior.existsCheck (backend : Backend) (b : BehaviorState)
    (id : String) : Except S3DBError Bool :=
  match backend b.fullBucketName (toKey id b.idPrefix) with
  | Except.ok _ => Except.ok true
  | Except.error BackendError.notFound => Except.ok false
  | Except.error e => Except.error (handleError e b.fullBucketName id)

/-- Substitution as the spec words it (section 4.2), for comparison with
the code: one left-to-right pass in which each recognized placeholder is
replaced by its token, literally and without rescanning the substituted
value, everything else copied verbatim; unknown or unresolved placeholders
simply fail to match and stay. -/
def specSubstituteFuel (stageV regionV baseNameV bucketNameV : String) :
    Nat → List Char → List Char
  | 0, s => s
  | _, [] => []
  | fuel + 1, c :: rest =>
    if stagePlaceholder.data.isPrefixOf (c :: rest) then
      stageV.data ++ specSubstituteFuel stageV regionV baseNameV bucketNameV fuel
        (rest.drop (stagePlaceholder.data.length - 1))
    else if regionPlaceholder.data.isPrefixOf (c :: rest) then
      regionV.data ++ specSubstituteFuel stageV regionV baseNameV bucketNameV fuel
        (rest.drop (regionPlaceholder.data.length - 1))
    else if baseNamePlaceholder.data.isPrefixOf (c :: rest) then
      baseNameV.data ++ specSubstituteFuel stageV regionV baseNameV bucketNameV fuel
        (rest.drop (baseNamePlaceholder.data.length - 1))
    else if bucketNamePlaceholder.data.isPrefixOf (c :: rest) then
      bucketNameV.data ++ specSubstituteFuel stageV regionV baseNameV bucketNameV fuel
        (rest.drop (bucketNamePlaceholder.data.length - 1))
    else c :: specSubstituteFuel stageV regionV baseNameV bucketNameV fuel rest

/-- Spec-worded substitution: every step of the pass consumes at least one
character, so fuel equal to the input length completes the single pass. -/
def specSubstitute (stageV regionV baseNameV bucketNameV : String)
    (s : List Char) : List Char :=
  specSubstituteFuel stageV regionV baseNameV bucketNameV s.length s

/-- Spec-worded substitution lifted to `String`, taking the tokens the code
would use for a global configuration `c` and a collection name. -/
def specSubstituteS (c : S3DBConfiguration) (name : String) : String :=
  ⟨specSubstitute c.stage (S3DB.getRegion c) c.baseName name c.bucketPattern.data⟩

/-- Example process-wide configuration used by the concrete instances: the
bucket pattern of the spec's templating example. -/
def exGlobal : S3DBConfiguration :=
  { baseName := "app", stage := "prod"
    bucketPattern :=
      "\x7b\x7bbaseName\x7d\x7d-\x7b\x7bstage\x7d\x7d-\x7b\x7bbucketName\x7d\x7d"
    region := none }

/-- Example registry entry for the logical name "users" with a page size
that overrides the default. -/
def exUsersEntry : CollectionConfiguration :=
  { name := some "users", pageSize := some 100 }

/-- Example defaults carrying only a page size. -/
def exDefaults : CollectionConfiguration := { pageSize := some 50 }

/-- Example registry holding exactly the "users" entry. -/
def exReg : CollectionRegistry :=
  fun n => if n = "users" then some exUsersEntry else none

/-- Example registry miss: an empty registry. -/
def emptyReg : CollectionRegistry := fun _ => none

/-- Merged configuration the example collection ends up with. -/
def exConfigMerged : CollectionConfiguration :=
  { name := some "users", pageSize := some 100, type := some "Users" }

/-- Behaviour binding of the example collection (prefix "users/"). -/
def exBehavior : BehaviorState :=
  { configuration := exConfigMerged, fullBucketName := "app-prod-users"
    idPrefix := some "users/" }

/-- Behaviour binding of the example collection built without a prefix. -/
def exBehavior0 : BehaviorState :=
  { configuration := exConfigMerged, fullBucketName := "app-prod-users"
    idPrefix := none }

/-- Example collection state built without an id prefix. -/
def exState0 : CollectionState :=
  { configuration := exConfigMerged, idPrefix := none
    fullBucketName := "app-prod-users"
    headBehavior := exBehavior0, existsBehavior := exBehavior0
    loadBehavior := exBehavior0, saveBheavior := exBehavior0
    deleteBehavior := exBehavior0, findBehavior := exBehavior0 }

/-- Backend that reports not-found for every key. -/
def exBackendNotFound : Backend := fun _ _ => Except.error BackendError.notFound

/-- Backend that fails every call with a non-not-found error. -/
def exBackendFail : Backend :=
  fun _ _ => Except.error (BackendError.backendFailure "boom")

/-- Global configuration of the recursive-expansion counterexample: the
pattern is the stage placeholder and the stage token is itself the region
placeholder. -/
def c5Global : S3DBConfiguration :=
  { baseName := "b", stage := regionPlaceholder
    bucketPattern := stagePlaceholder, region := some "r" }

/-- Appending a string to a prefix always yields a string starting with
that prefix. -/
theorem strStartsWith_append (p i : String) : strStartsWith (p ++ i) p = true := by
  unfold strStartsWith
  rw [String.data_append]
  have h := List.prefix_append p.data i.data
  rwa [← List.isPrefixOf_iff_prefix] at h

/-- JS `replace` with a pattern that does not occur leaves the string
unchanged. -/
theorem jsReplaceS_no_occurrence (s pat rep : String)
    (h : findSub s.data pat.data = none) : jsReplaceS s pat rep = s := by
  unfold jsReplaceS jsReplace
  rw [h]

/-- Anatomy of a successful name resolution: the configuration is the
spread merge, the bucket name comes from the captured global configuration,
the merged name is not falsy and the logical name is non-empty. -/
theorem resolve_ok_parts {reg : CollectionRegistry} {d : CollectionConfiguration}
    {g : S3DBConfiguration} {t : String} {cfg : CollectionConfiguration} {bn : String}
    (h : Collection.resolve reg d g t = Except.ok (cfg, bn)) :
    cfg = mergeConfig d (reg (jsToLower t)) t ∧
    bn = S3DB.getCollectionFQN g (cfg.name.getD "") ∧
    nameFalsy cfg.name = false ∧ t ≠ "" := by
  unfold Collection.resolve at h
  by_cases ht : t = ""
  · simp [ht] at h
  · rw [if_neg ht] at h
    cases hn : nameFalsy (mergeConfig d (reg (jsToLower t)) t).name with
    | true => rw [hn] at h; simp at h
    | false =>
      rw [hn] at h
      simp only [Bool.false_eq_true, if_false, Except.ok.injEq, Prod.mk.injEq] at h
      obtain ⟨h1, h2⟩ := h
      subst h1
      subst h2
      exact ⟨rfl, rfl, hn, ht⟩

/-- Anatomy of a successful construction: resolution succeeded with the
state's configuration and bucket name, the id prefix is the one passed, and
the behaviour units are bound to exactly these. -/
theorem construct_ok_parts {reg : CollectionRegistry} {d : CollectionConfiguration}
    {g : S3DBConfiguration} {t : String} {ip : Option String} {c : CollectionState}
    (h : Collection.construct reg d g t ip = Except.ok c) :
    Collection.resolve reg d g t = Except.ok (c.configuration, c.fullBucketName) ∧
    c.idPrefix = ip ∧
    c.headBehavior = ⟨c.configuration, c.fullBucketName, ip⟩ := by
  unfold Collection.construct at h
  cases hr : Collection.resolve reg d g t with
  | error e => rw [hr] at h; simp at h
  | ok pr =>
    obtain ⟨cfg, bn⟩ := pr
    rw [hr] at h
    simp only [Except.ok.injEq] at h
    subst h
    exact ⟨rfl, rfl, rfl⟩

/-- A successful resolution assembles the collection state, whatever the id
prefix. -/
theorem construct_of_resolve {reg : CollectionRegistry} {d : CollectionConfiguration}
    {g : S3DBConfiguration} {t : String} {cfg : CollectionConfiguration} {bn : String}
    (h : Collection.resolve reg d g t = Except.ok (cfg, bn)) (ip : Option String) :
    Collection.construct reg d g t ip = Except.ok
      { configuration := cfg, idPrefix := ip, fullBucketName := bn
        headBehavior := ⟨cfg, bn, ip⟩, existsBehavior := ⟨cfg, bn, ip⟩
        loadBehavior := ⟨cfg, bn, ip⟩, saveBheavior := ⟨cfg, bn, ip⟩
        deleteBehavior := ⟨cfg, bn, ip⟩, findBehavior := ⟨cfg, bn, ip⟩ } := by
  unfold Collection.construct
  rw [h]

/-- C1. The constructor's effective configuration starts from defaults,
overlays the registry entry found under the lower-cased logical name (a
miss falls back to defaults), and overlays the caller's explicit type
binding last; in particular with defaults carrying page size 50 and a
registry entry for "users" carrying name "users" and page size 100,
constructing with the type name "Users" yields the name "users" and page
size 100. -/
theorem c1_config_precedence :
    (∀ (d : CollectionConfiguration) (t : String),
      mergeConfig d none t =
        { name := d.name, pageSize := d.pageSize, type := some t }) ∧
    (∀ (d r : CollectionConfiguration) (t : String),
      mergeConfig d (some r) t =
        { name := r.name <|> d.name, pageSize := r.pageSize <|> d.pageSize
          type := some t }) ∧
    (∀ (reg : CollectionRegistry) (d : CollectionConfiguration)
        (g : S3DBConfiguration) (t : String) (ip : Option String)
        (c : CollectionState),
      Collection.construct reg d g t ip = Except.ok c →
      c.configuration = mergeConfig d (reg (jsToLower t)) t) ∧
    (∃ c, Collection.construct exReg exDefaults exGlobal "Users" none = Except.ok c ∧
      c.configuration.name = some "users" ∧ c.configuration.pageSize = some 100 ∧
      c.configuration.type = some "Users") := by
  refine ⟨fun d t => rfl, fun d r t => rfl, ?_, ⟨_, rfl, rfl, rfl, rfl⟩⟩
  intro reg d g t ip c h
  obtain ⟨hr, -, -⟩ := construct_ok_parts h
  exact (resolve_ok_parts hr).1

/-- C1 witness: the example collection exists and its configuration is
exactly the merge of the defaults with the registry entry under the
lower-cased name. -/
theorem c1_witness :
    ∃ c, Collection.construct exReg exDefaults exGlobal "Users" none = Except.ok c ∧
      c.configuration = mergeConfig exDefaults (exReg (jsToLower "Users")) "Users" := by
  obtain ⟨c, hc, -, -, -⟩ := c1_config_precedence.2.2.2
  exact ⟨c, hc, c1_config_precedence.2.2.1 exReg exDefaults exGlobal "Users" none c hc⟩

/-- C2. The key resolver: an undefined or empty prefix leaves the id, an id
already starting with the prefix is unchanged, otherwise the prefix is
prepended; and the resolver is idempotent — applying it to its own output
is a no-op. -/
theorem c2_toKey_idempotent :
    (∀ i : String, toKey i none = i ∧ toKey i (some "") = i) ∧
    (∀ i p : String, p ≠ "" → strStartsWith i p = true → toKey i (some p) = i) ∧
    (∀ i p : String, p ≠ "" → strStartsWith i p = false → toKey i (some p) = p ++ i) ∧
    (∀ (i : String) (p : Option String), toKey (toKey i p) p = toKey i p) := by
  refine ⟨fun i => ⟨rfl, by simp [toKey]⟩,
    fun i p hp hs => by simp [toKey, hp, hs],
    fun i p hp hs => by simp [toKey, hp, hs], ?_⟩
  intro i p
  cases p with
  | none => rfl
  | some p =>
    by_cases hp : p = ""
    · simp [toKey, hp]
    · by_cases hs : strStartsWith i p = true
      · simp [toKey, hp, hs]
      · have hs' : strStartsWith i p = false := by
          revert hs
          cases strStartsWith i p <;> simp
        simp [toKey, hp, hs', strStartsWith_append]

/-- C2 witness: idempotence at the id "doc1" and the prefix "users/", where
the first application really does prepend the prefix. -/
theorem c2_witness :
    toKey (toKey "doc1" (some "users/")) (some "users/") =
      toKey "doc1" (some "users/") ∧
    toKey "doc1" (some "users/") = "users/doc1" :=
  ⟨c2_toKey_idempotent.2.2.2 "doc1" (some "users/"), by decide⟩

/-- C10. `S3DB.update` is a partial merge: every field absent from the
argument keeps its previous value and every field present replaces it. -/
theorem c10_update_merge :
    ∀ (c : S3DBConfiguration) (u : S3DBConfigUpdate),
      ((u.baseName = none → (S3DB.update c u).baseName = c.baseName) ∧
        (∀ v, u.baseName = some v → (S3DB.update c u).baseName = v)) ∧
      ((u.stage = none → (S3DB.update c u).stage = c.stage) ∧
        (∀ v, u.stage = some v → (S3DB.update c u).stage = v)) ∧
      ((u.bucketPattern = none → (S3DB.update c u).bucketPattern = c.bucketPattern) ∧
        (∀ v, u.bucketPattern = some v → (S3DB.update c u).bucketPattern = v)) ∧
      ((u.region = none → (S3DB.update c u).region = c.region) ∧
        (∀ v, u.region = some v → (S3DB.update c u).region = some v)) := by
  intro c u
  refine ⟨⟨fun h => ?_, fun v h => ?_⟩, ⟨fun h => ?_, fun v h => ?_⟩,
    ⟨fun h => ?_, fun v h => ?_⟩, ⟨fun h => ?_, fun v h => ?_⟩⟩ <;>
    simp [S3DB.update, h, Option.orElse]

/-- C10 witness: updating only the stage replaces the stage and keeps the
base name. -/
theorem c10_witness :
    (S3DB.update exGlobal { stage := some "qa" }).stage = "qa" ∧
    (S3DB.update exGlobal { stage := some "qa" }).baseName = exGlobal.baseName :=
  ⟨(c10_update_merge exGlobal { stage := some "qa" }).2.1.2 "qa" rfl,
    (c10_update_merge exGlobal { stage := some "qa" }).1.1 rfl⟩

/-- C3. Prefix composition through subCollection is associative: chaining
two sub-collections yields a collection with the same effective id prefix
as one sub-collection call made with the concatenated string, and nesting
any number of levels deep composes to the single concatenated call. -/
theorem c3_subCollection_assoc :
    (∀ (reg : CollectionRegistry) (d : CollectionConfiguration)
        (g : S3DBConfiguration) (c : CollectionState) (a b t₁ t₂ : String)
        (c₁ c₂ : CollectionState),
      Collection.subCollection reg d g c a t₁ = Except.ok c₁ →
      Collection.subCollection reg d g c₁ b t₂ = Except.ok c₂ →
      ∃ c₃, Collection.subCollection reg d g c (a ++ b) t₂ = Except.ok c₃ ∧
        c₃.idPrefix = c₂.idPrefix) ∧
    (∀ (ps : List String) (parent : Option String), ps ≠ [] →
      nestPrefix parent ps = some (Collection.subPrefix parent (concatAll ps))) := by
  constructor
  · intro reg d g c a b t₁ t₂ c₁ c₂ h₁ h₂
    unfold Collection.subCollection at h₁ h₂ ⊢
    obtain ⟨hr₁, hip₁, -⟩ := construct_ok_parts h₁
    obtain ⟨hr₂, hip₂, -⟩ := construct_ok_parts h₂
    refine ⟨_, construct_of_resolve hr₂ (some (Collection.subPrefix c.idPrefix (a ++ b))), ?_⟩
    show some (Collection.subPrefix c.idPrefix (a ++ b)) = c₂.idPrefix
    rw [hip₂, hip₁]
    simp [Collection.subPrefix, interpolate, String.append_assoc]
  · intro ps
    induction ps with
    | nil => intro parent h; exact absurd rfl h
    | cons p ps ih =>
      intro parent _
      cases ps with
      | nil => rfl
      | cons q qs =>
        have step : nestPrefix parent (p :: q :: qs) =
            nestPrefix (some (Collection.subPrefix parent p)) (q :: qs) := rfl
        have cstep : concatAll (p :: q :: qs) = p ++ concatAll (q :: qs) := rfl
        rw [step, ih (some (Collection.subPrefix parent p)) (by simp), cstep]
        simp [Collection.subPrefix, interpolate, String.append_assoc]

/-- C3 witness: two nested prefixes compose into the one concatenated
sub-collection prefix. -/
theorem c3_witness :
    nestPrefix (some "r/") ["a/", "b/"] =
      some (Collection.subPrefix (some "r/") (concatAll ["a/", "b/"])) :=
  c3_subCollection_assoc.2 ["a/", "b/"] (some "r/") (by simp)

/-- C9. A collection built without an id prefix hands its children the
string "undefined" glued in front of the requested prefix — the template
literal stringifies the undefined parent prefix — rather than the prefix
alone. -/
theorem c9_undefined_prefix :
    (∀ (reg : CollectionRegistry) (d : CollectionConfiguration)
        (g : S3DBConfiguration) (c : CollectionState) (p newType : String),
      c.idPrefix = none →
      Collection.subCollection reg d g c p newType =
        Collection.construct reg d g newType (some ("undefined" ++ p))) ∧
    (∀ p : String, Collection.subPrefix none p = "undefined" ++ p) ∧
    (∀ p : String, "undefined" ++ p ≠ p) := by
  refine ⟨fun reg d g c p newType h => ?_, fun p => rfl, fun p h => ?_⟩
  · unfold Collection.subCollection
    rw [h]
    rfl
  · have hl := congrArg (fun s : String => s.data.length) h
    simp only [String.data_append, List.length_append] at hl
    have h9 : ("undefined" : String).data.length = 9 := rfl
    rw [h9] at hl
    omega

/-- C9 witness: on the concrete prefix-less example state, subCollection
with prefix "a/" constructs the child with prefix "undefineda/". -/
theorem c9_witness :
    Collection.subCollection exReg exDefaults exGlobal exState0 "a/" "Users" =
      Collection.construct exReg exDefaults exGlobal "Users" (some ("undefined" ++ "a/")) :=
  c9_undefined_prefix.1 exReg exDefaults exGlobal exState0 "a/" "Users" rfl

/-- C6. Construction fails whenever the merged configuration has no
resolvable name: the constructor returns the configuration error and no
collection state — hence no behaviour units — is produced; conversely every
constructed collection has a non-falsy name. -/
theorem c6_construction_aborts :
    (∀ (reg : CollectionRegistry) (d : CollectionConfiguration)
        (g : S3DBConfiguration) (t : String) (ip : Option String),
      nameFalsy (mergeConfig d (reg (jsToLower t)) t).name = true →
      ∃ e, Collection.construct reg d g t ip = Except.error e) ∧
    (∀ (reg : CollectionRegistry) (d : CollectionConfiguration)
        (g : S3DBConfiguration) (t : String) (ip : Option String)
        (c : CollectionState),
      Collection.construct reg d g t ip = Except.ok c →
      nameFalsy c.configuration.name = false) ∧
    (Collection.construct emptyReg {} exGlobal "Users" none =
      Except.error noNameMessage) := by
  refine ⟨?_, ?_, rfl⟩
  · intro reg d g t ip h
    by_cases ht : t = ""
    · refine ⟨"No type was provided.", ?_⟩
      have hr : Collection.resolve reg d g t = Except.error "No type was provided." := by
        unfold Collection.resolve
        rw [if_pos ht]
      unfold Collection.construct
      rw [hr]
    · refine ⟨noNameMessage, ?_⟩
      have hr : Collection.resolve reg d g t = Except.error noNameMessage := by
        unfold Collection.resolve
        rw [if_neg ht, if_pos h]
      unfold Collection.construct
      rw [hr]
  · intro reg d g t ip c h
    obtain ⟨hr, -, -⟩ := construct_ok_parts h
    exact (resolve_ok_parts hr).2.2.1

/-- C6 witness: with an empty registry and defaults carrying no name, the
merged configuration for "Orders" has a falsy name and construction
errors. -/
theorem c6_witness :
    ∃ e, Collection.construct emptyReg {} exGlobal "Orders" none = Except.error e :=
  c6_construction_aborts.1 emptyReg {} exGlobal "Orders" none (by decide)

/-- C8. A collection freezes the process-wide configuration at
construction: its bucket name — the one every head request carries — is the
template resolution against the configuration captured when it was built,
so an update touches only collections constructed afterwards; concretely,
the collection built before a stage update keeps bucket "app-prod-users"
while one built after gets "app-qa-users". -/
theorem c8_frozen_snapshot :
    (∀ (reg : CollectionRegistry) (d : CollectionConfiguration)
        (g : S3DBConfiguration) (t : String) (ip : Option String)
        (c : CollectionState),
      Collection.construct reg d g t ip = Except.ok c →
      c.fullBucketName = S3DB.getCollectionFQN g (c.configuration.name.getD "") ∧
      ∀ id, (headParameters c.headBehavior id).Bucket =
        S3DB.getCollectionFQN g (c.configuration.name.getD "")) ∧
    (∃ c c', Collection.construct exReg exDefaults exGlobal "Users" none = Except.ok c ∧
      Collection.construct exReg exDefaults (S3DB.update exGlobal { stage := some "qa" })
        "Users" none = Except.ok c' ∧
      c.fullBucketName = "app-prod-users" ∧ c'.fullBucketName = "app-qa-users") := by
  constructor
  · intro reg d g t ip c h
    obtain ⟨hr, -, hhead⟩ := construct_ok_parts h
    have hbn := (resolve_ok_parts hr).2.1
    refine ⟨hbn, fun id => ?_⟩
    show c.headBehavior.fullBucketName = _
    rw [hhead]
    exact hbn
  · exact ⟨_, _, rfl, rfl, by decide, by decide⟩

/-- C8 witness: the example collection's bucket name equals the template
resolution against the configuration captured at its construction. -/
theorem c8_witness :
    ∃ c, Collection.construct exReg exDefaults exGlobal "Users" none = Except.ok c ∧
      c.fullBucketName = S3DB.getCollectionFQN exGlobal (c.configuration.name.getD "") := by
  obtain ⟨c, c', hc, hc', -, -⟩ := c8_frozen_snapshot.2
  exact ⟨c, hc,
    (c8_frozen_snapshot.1 exReg exDefaults exGlobal "Users" none c hc).1⟩

/-- C4. Bucket-name templating at the spec's example is deterministic and
idempotent: the pattern with base name, stage and bucket-name placeholders
and tokens app/prod/users resolves to exactly "app-prod-users", and
re-applying the templating to that output (which has no placeholders left)
returns it unchanged. -/
theorem c4_templating_determinism :
    S3DB.getCollectionFQN exGlobal "users" = "app-prod-users" ∧
    S3DB.getCollectionFQN { exGlobal with bucketPattern := "app-prod-users" }
      "users" = "app-prod-users" := by
  constructor <;> decide

/-- C5 counterexample: substitution is not literal — with the stage token
itself being the region placeholder, the code's sequential replacement
expands the substituted value again (the pattern resolves to "r"), while
the spec's literal single-pass substitution leaves the region placeholder
in the output. -/
theorem c5_counterexample :
    S3DB.getCollectionFQN c5Global "n" = "r" ∧
    specSubstituteS c5Global "n" = regionPlaceholder ∧
    S3DB.getCollectionFQN c5Global "n" ≠ specSubstituteS c5Global "n" := by
  refine ⟨by decide, by decide, by decide⟩

/-- C5 amended: substitution is sequential in the fixed order stage,
region, base name, bucket name, each step replacing only the first
occurrence of its placeholder, case-sensitively, and a value substituted
early is subject to the later replacement steps; substitution never fails,
and a pattern in which no recognized placeholder occurs — unknown or
miscased placeholders included — is returned verbatim. -/
theorem c5_amended :
    (∀ (g : S3DBConfiguration) (name : String),
      findSub g.bucketPattern.data stagePlaceholder.data = none →
      findSub g.bucketPattern.data regionPlaceholder.data = none →
      findSub g.bucketPattern.data baseNamePlaceholder.data = none →
      findSub g.bucketPattern.data bucketNamePlaceholder.data = none →
      S3DB.getCollectionFQN g name = g.bucketPattern) ∧
    (S3DB.getCollectionFQN { exGlobal with bucketPattern := "\x7b\x7bStage\x7d\x7d" }
      "users" = "\x7b\x7bStage\x7d\x7d") := by
  constructor
  · intro g name h1 h2 h3 h4
    unfold S3DB.getCollectionFQN
    rw [jsReplaceS_no_occurrence _ _ _ h1, jsReplaceS_no_occurrence _ _ _ h2,
      jsReplaceS_no_occurrence _ _ _ h3, jsReplaceS_no_occurrence _ _ _ h4]
  · decide

/-- C5 witness: a pattern without any recognized placeholder passes through
all four replacement steps verbatim. -/
theorem c5_witness :
    S3DB.getCollectionFQN
      { baseName := "x", stage := "y", bucketPattern := "plain-bucket", region := none }
      "n" = "plain-bucket" :=
  c5_amended.1
    { baseName := "x", stage := "y", bucketPattern := "plain-bucket", region := none }
    "n" (by decide) (by decide) (by decide) (by decide)

/-- C7. On a backend not-found, the head behaviour as written rejects with
the translated error instead of resolving to an absent result — its catch
block rethrows for every backend failure — while the spec-modelled exists
behaviour resolves to false; a non-not-found backend failure surfaces as a
storage error carrying the bucket and the raw id. -/
theorem c7_head_notFound :
    HeadBehavior.head exBackendNotFound exBehavior "doc1" =
      Except.error (S3DBError.notFoundError "app-prod-users" "doc1") ∧
    ExistsBehavior.existsCheck exBackendNotFound exBehavior "doc1" =
      Except.ok false ∧
    HeadBehavior.head exBackendFail exBehavior "doc1" =
      Except.error (S3DBError.storageError "app-prod-users" "doc1" "boom") ∧
    (∀ m : S3Metadata, HeadBehavior.head exBackendNotFound exBehavior "doc1" ≠
      Except.ok m) := by
  refine ⟨rfl, rfl, rfl, fun m h => ?_⟩
  simp [HeadBehavior.head, exBackendNotFound] at h
